import Mathlib

/-!
Verification of the generic request-proxy adapter in `server.py`
(MachinesensIOT/aibot_mcp_server).

The Python source is shallowly embedded: dictionaries become ordered
association lists, Python values flowing into request bodies and query
strings become the inductive type `Value`, the network is an oracle
function `Request → UpstreamResponse`, and each proxy operation becomes
a pure function that either fails with an `AdapterError` or produces the
outbound `Request` / final result.
-/

/-- Python values that appear in argument maps, request bodies and query
strings: `None`, ints, strings, booleans, lists and nested dicts. -/
inductive Value where
  | vNone : Value
  | vInt (n : Int) : Value
  | vStr (s : String) : Value
  | vBool (b : Bool) : Value
  | vList (xs : List Value) : Value
  | vDict (xs : List (String × Value)) : Value

/-- A Python dict with string keys, as an ordered association list. -/
abbrev Dict := List (String × Value)

/-- Lookup in a dict: `d.get(k)` — first binding of `k`, if any. -/
def dictGet (d : Dict) (k : String) : Option Value :=
  (d.find? (fun kv => kv.1 == k)).map (fun kv => kv.2)

/-- Python dict item assignment `d[k] = v`: overwrite the existing binding
in place, else append a new binding at the end. -/
def dictSet (d : Dict) (k : String) (v : Value) : Dict :=
  if (d.find? (fun kv => kv.1 == k)).isSome then
    d.map (fun kv => if kv.1 == k then (kv.1, v) else kv)
  else
    d ++ [(k, v)]

/-- Python `d.update(e)`: assign every binding of `e` into `d`, in order. -/
def dictUpdate (d : Dict) (e : Dict) : Dict :=
  e.foldl (fun acc kv => dictSet acc kv.1 kv.2) d

/-- Truth of the predicate in `_prune` / `_q`: an entry is kept unless its
value is `None` or an empty list (`v is None`, `isinstance(v, list) and
len(v) == 0` in the source). -/
def keepEntry (v : Value) : Bool :=
  match v with
  | .vNone => false
  | .vList [] => false
  | _ => true

/-- Embedding of `_prune` (server.py line 27): drop `None` values and empty
lists from a dict, keeping the remaining entries in order. -/
def _prune (d : Dict) : Dict :=
  d.filter (fun kv => keepEntry kv.2)

/-- Embedding of `_q` (server.py line 1443): identical pruning used for EMS
GET query parameters. -/
def _q (d : Dict) : Dict :=
  d.filter (fun kv => keepEntry kv.2)

/-- Embedding of `_clean_payload` (server.py line 492): drop only `None`
values; empty lists are retained. -/
def _clean_payload (d : Dict) : Dict :=
  d.filter (fun kv => match kv.2 with | .vNone => false | _ => true)

/-- Wrap an optional Python `str` argument as a `Value`. -/
def optStr : Option String → Value
  | none => .vNone
  | some s => .vStr s

/-- Wrap an optional Python `int` argument as a `Value`. -/
def optInt : Option Int → Value
  | none => .vNone
  | some n => .vInt n

/-- Wrap an optional Python `List[int]` argument as a `Value`. -/
def optListInt : Option (List Int) → Value
  | none => .vNone
  | some xs => .vList (xs.map (fun n => .vInt n))

/-- JSON values, as returned by the upstream backends. -/
inductive Json where
  | jNull : Json
  | jBool (b : Bool) : Json
  | jNum (n : Int) : Json
  | jStr (s : String) : Json
  | jArr (xs : List Json) : Json
  | jObj (fields : List (String × Json)) : Json

/-- Error taxonomy of the adapter. `missingCredential` is the
`PermissionError` of `_need_token`; `upstream` is the `HTTPStatusError`
raised by `raise_for_status`; `decode` is a 2xx body that is not JSON. -/
inductive AdapterError where
  | missingCredential : AdapterError
  | upstream (status : Nat) (body : String) : AdapterError
  | decode : AdapterError

/-- Base address of the Data API: `os.environ.get("DATA_API_BASE", ...)`
(server.py line 8), taking the environment value as an `Option`. -/
def DATA_API_BASE (env : Option String) : String :=
  env.getD "https://api.pre.iot.machinesensiot.com"

/-- Base address of the EMS API: `os.environ.get("EMS_API_BASE", ...)`
(server.py line 1425). -/
def EMS_API_BASE (env : Option String) : String :=
  env.getD "https://energy.machinesensiot.com"

/-- Configuration of a scoped `httpx.AsyncClient`. -/
structure ClientCfg where
  base_url : String
  headers : List (String × String)
  timeout_total : Nat
  timeout_connect : Nat
  http2 : Bool
  verify : Bool

/-- Embedding of `_client` (server.py line 18): Data-API client with a
bearer Authorization header. -/
def _client (env : Option String) (bearer : String) : ClientCfg :=
  { base_url := DATA_API_BASE env
  , headers := [("Authorization", "Bearer " ++ bearer)]
  , timeout_total := 30
  , timeout_connect := 10
  , http2 := true
  , verify := false }

/-- Embedding of `_client_ems` (server.py line 1427): EMS client with the
bearer Authorization header and the fixed Referer header. -/
def _client_ems (env : Option String) (bearer : String) : ClientCfg :=
  { base_url := EMS_API_BASE env
  , headers := [("Authorization", "Bearer " ++ bearer),
                ("Referer", "https://energy.machinesensiot.com/Portfolio/Index?org_id=83&user_id=14")]
  , timeout_total := 30
  , timeout_connect := 10
  , http2 := true
  , verify := false }

/-- HTTP methods used by the adapter. -/
inductive Method where
  | get : Method
  | post : Method

/-- One outbound HTTP request, fully determined before any I/O happens. -/
structure Request where
  method : Method
  base_url : String
  path : String
  query : Dict
  body : Option Dict
  headers : List (String × String)

/-- One upstream HTTP response. `jsonBody` is the outcome of parsing the
raw bytes as JSON; `content` is the raw byte sequence; `text` stands in
for the body excerpt attached to status errors. -/
structure UpstreamResponse where
  status : Nat
  headers : List (String × String)
  content : List Nat
  jsonBody : Option Json
  text : String

/-- The network, as an oracle: a request is mapped to the response the
upstream would return for it. A call that never consults the oracle
performs no I/O. -/
abbrev Net := Request → UpstreamResponse

/-- Embedding of `_need_token` (server.py line 14): `if not bearer: raise
PermissionError(...)`. A missing bearer (`None`) and an empty string are
both falsy in Python, so both fail. -/
def _need_token (bearer : Option String) : Except AdapterError Unit :=
  match bearer with
  | none => .error .missingCredential
  | some s => if s = "" then .error .missingCredential else .ok ()

/-- Embedding of `httpx.Response.raise_for_status`: any non-2xx status
raises, carrying the status code and a body excerpt. -/
def raise_for_status (r : UpstreamResponse) : Except AdapterError Unit :=
  if 200 ≤ r.status ∧ r.status < 300 then .ok ()
  else .error (.upstream r.status r.text)

/-- Shared tail of every JSON-kind operation: send the request through the
network oracle, `raise_for_status`, then `r.json()`. -/
def runJson (req : Except AdapterError Request) (net : Net) : Except AdapterError Json :=
  match req with
  | .error e => .error e
  | .ok r =>
    let resp := net r
    match raise_for_status resp with
    | .error e => .error e
    | .ok _ =>
      match resp.jsonBody with
      | some j => .ok j
      | none => .error .decode

/-- Request built by `get_sites` (server.py line 47): check the token,
prune the body, open a Data-API client, POST `/api/Application/GetAllSites`. -/
def get_sites_request (env : Option String) (pageNo pageSize : Int)
    (search : Option String) (bearer : Option String) : Except AdapterError Request :=
  match _need_token bearer with
  | .error e => .error e
  | .ok _ =>
    let body := _prune [("pageNo", .vInt pageNo), ("pageSize", .vInt pageSize),
                        ("search", optStr search)]
    let c := _client env (bearer.getD "")
    .ok { method := .post, base_url := c.base_url,
          path := "/api/Application/GetAllSites",
          query := [], body := some body, headers := c.headers }

/-- Embedding of the full `get_sites` operation. -/
def get_sites (env : Option String) (pageNo pageSize : Int) (search : Option String)
    (bearer : Option String) (net : Net) : Except AdapterError Json :=
  runJson (get_sites_request env pageNo pageSize search bearer) net

/-- Request built by `get_buildings` (server.py line 56). -/
def get_buildings_request (env : Option String) (pageNo pageSize : Int)
    (search : Option String) (siteId buildingTypeId : Option Int)
    (bearer : Option String) : Except AdapterError Request :=
  match _need_token bearer with
  | .error e => .error e
  | .ok _ =>
    let body := _prune [("pageNo", .vInt pageNo), ("pageSize", .vInt pageSize),
                        ("search", optStr search), ("siteId", optInt siteId),
                        ("buildingTypeId", optInt buildingTypeId)]
    let c := _client env (bearer.getD "")
    .ok { method := .post, base_url := c.base_url,
          path := "/api/Application/GetAllBuildings",
          query := [], body := some body, headers := c.headers }

/-- Embedding of the full `get_buildings` operation. -/
def get_buildings (env : Option String) (pageNo pageSize : Int) (search : Option String)
    (siteId buildingTypeId : Option Int) (bearer : Option String) (net : Net) :
    Except AdapterError Json :=
  runJson (get_buildings_request env pageNo pageSize search siteId buildingTypeId bearer) net

/-- Request built by `get_energy_dashboard_data` (server.py line 456):
`year` and `month` are plain ints defaulting to 0, pruned with `_prune`. -/
def get_energy_dashboard_data_request (env : Option String)
    (siteIds buildingIds : Option (List Int)) (year month : Int)
    (bearer : Option String) : Except AdapterError Request :=
  match _need_token bearer with
  | .error e => .error e
  | .ok _ =>
    let body := _prune [("siteIds", optListInt siteIds), ("buildingIds", optListInt buildingIds),
                        ("year", .vInt year), ("month", .vInt month)]
    let c := _client env (bearer.getD "")
    .ok { method := .post, base_url := c.base_url,
          path := "/api/Sustainability/GetEnergyDashboardData",
          query := [], body := some body, headers := c.headers }

/-- Embedding of the full `get_energy_dashboard_data` operation. -/
def get_energy_dashboard_data (env : Option String)
    (siteIds buildingIds : Option (List Int)) (year month : Int)
    (bearer : Option String) (net : Net) : Except AdapterError Json :=
  runJson (get_energy_dashboard_data_request env siteIds buildingIds year month bearer) net

/-- The named-parameter map of `get_overview_dashboard` after
normalization through `_clean_payload` (server.py lines 516-529). -/
def overview_named_payload (pageNo pageSize : Int) (search : Option String)
    (siteIds buildingIds floorIds applicationIds assetIds : Option (List Int))
    (startDate endDate : Option String) : Dict :=
  _clean_payload
    [("pageNo", .vInt pageNo), ("pageSize", .vInt pageSize), ("search", optStr search),
     ("siteIds", optListInt siteIds), ("buildingIds", optListInt buildingIds),
     ("floorIds", optListInt floorIds), ("applicationIds", optListInt applicationIds),
     ("assetIds", optListInt assetIds), ("startDate", optStr startDate),
     ("endDate", optStr endDate)]

/-- Request built by `get_overview_dashboard` (server.py line 499): the
named parameters go through `_clean_payload`, then `if extra:
payload.update(extra)` merges the free-form extension map. -/
def get_overview_dashboard_request (env : Option String) (pageNo pageSize : Int)
    (search : Option String) (siteIds buildingIds floorIds applicationIds assetIds : Option (List Int))
    (startDate endDate : Option String) (extra : Option Dict)
    (bearer : Option String) : Except AdapterError Request :=
  match _need_token bearer with
  | .error e => .error e
  | .ok _ =>
    let payload := overview_named_payload pageNo pageSize search siteIds buildingIds
      floorIds applicationIds assetIds startDate endDate
    let payload := match extra with
      | some e => if e.isEmpty then payload else dictUpdate payload e
      | none => payload
    let c := _client env (bearer.getD "")
    .ok { method := .post, base_url := c.base_url,
          path := "/api/Dashboard/GetOverviewDashboard",
          query := [], body := some payload, headers := c.headers }

/-- Embedding of the full `get_overview_dashboard` operation. -/
def get_overview_dashboard (env : Option String) (pageNo pageSize : Int)
    (search : Option String) (siteIds buildingIds floorIds applicationIds assetIds : Option (List Int))
    (startDate endDate : Option String) (extra : Option Dict)
    (bearer : Option String) (net : Net) : Except AdapterError Json :=
  runJson (get_overview_dashboard_request env pageNo pageSize search siteIds buildingIds
    floorIds applicationIds assetIds startDate endDate extra bearer) net

/-- Request built by `ems_portfolio_get_utility_energy_stats` (server.py
line 1491): `siteId` and `buildingId` are optional ints defaulting to 0;
query parameters go through `_q` on an EMS GET. -/
def ems_portfolio_get_utility_energy_stats_request (env : Option String)
    (startDate endDate : String) (siteId buildingId : Option Int)
    (bearer : Option String) : Except AdapterError Request :=
  match _need_token bearer with
  | .error e => .error e
  | .ok _ =>
    let params := _q [("siteId", optInt siteId), ("buildingId", optInt buildingId),
                      ("startDate", .vStr startDate), ("endDate", .vStr endDate)]
    let c := _client_ems env (bearer.getD "")
    .ok { method := .get, base_url := c.base_url,
          path := "/Portfolio/GetUtilityEnergyStats",
          query := params, body := none, headers := c.headers }

/-- Embedding of the full `ems_portfolio_get_utility_energy_stats` operation. -/
def ems_portfolio_get_utility_energy_stats (env : Option String)
    (startDate endDate : String) (siteId buildingId : Option Int)
    (bearer : Option String) (net : Net) : Except AdapterError Json :=
  runJson (ems_portfolio_get_utility_energy_stats_request env startDate endDate siteId buildingId bearer) net

/-- Request built by `ems_ecm_get_high_apparent_or_active_power` (server.py
line 2205): the logical `meterId` argument is sent under the wire key
`meterid`, as the source maps it explicitly. -/
def ems_ecm_get_high_apparent_or_active_power_request (env : Option String)
    (buildingName startDate endDate : String) (meterId : Option Int)
    (bearer : Option String) : Except AdapterError Request :=
  match _need_token bearer with
  | .error e => .error e
  | .ok _ =>
    let params := _q [("buildingName", .vStr buildingName), ("startDate", .vStr startDate),
                      ("endDate", .vStr endDate), ("meterid", optInt meterId)]
    let c := _client_ems env (bearer.getD "")
    .ok { method := .get, base_url := c.base_url,
          path := "/EnergyCentricMaintenance/GetHighApparentPowerorActivePower",
          query := params, body := none, headers := c.headers }

/-- Embedding of the full `ems_ecm_get_high_apparent_or_active_power` operation. -/
def ems_ecm_get_high_apparent_or_active_power (env : Option String)
    (buildingName startDate endDate : String) (meterId : Option Int)
    (bearer : Option String) (net : Net) : Except AdapterError Json :=
  runJson (ems_ecm_get_high_apparent_or_active_power_request env buildingName startDate endDate meterId bearer) net

/-- Embedding of `health` (server.py line 41): no token check, no client,
no network; returns the liveness flag and the configured Data-API base. -/
def health (env : Option String) : Json :=
  .jObj [("ok", .jBool true), ("api_base", .jStr (DATA_API_BASE env))]

/-- The standard base64 alphabet used by Python `base64.b64encode`. -/
def b64Chars : List Char :=
  "ABCDEFGHIJKLMNOPQRSTUVWXYZabcdefghijklmnopqrstuvwxyz0123456789+/".toList

/-- Character for a six-bit group. -/
def b64Char (n : Nat) : Char := b64Chars.getD n 'A'

/-- Inverse of `b64Char`: position of a character in the alphabet. -/
def b64Index (c : Char) : Option Nat := b64Chars.findIdx? (fun x => x == c)

/-- Standard base64 encoding of a byte sequence, three bytes to four
characters, with `=` padding, exactly as `base64.b64encode` produces. -/
def b64EncodeCore : List Nat → List Char
  | [] => []
  | [a] => [b64Char (a / 4), b64Char (a % 4 * 16), '=', '=']
  | [a, b] => [b64Char (a / 4), b64Char (a % 4 * 16 + b / 16), b64Char (b % 16 * 4), '=']
  | a :: b :: c :: rest =>
      b64Char (a / 4) :: b64Char (a % 4 * 16 + b / 16) ::
      b64Char (b % 16 * 4 + c / 64) :: b64Char (c % 64) :: b64EncodeCore rest

/-- Base64 encoding as a string (`base64.b64encode(...).decode("utf-8")`). -/
def b64Encode (bs : List Nat) : String := String.mk (b64EncodeCore bs)

/-- Standard base64 decoding, the inverse of `b64EncodeCore`. -/
def b64DecodeCore : List Char → Option (List Nat)
  | [] => some []
  | c1 :: c2 :: c3 :: c4 :: rest =>
    match b64Index c1, b64Index c2 with
    | some s1, some s2 =>
      if c3 = '=' then
        if c4 = '=' ∧ rest = [] then some [s1 * 4 + s2 / 16] else none
      else
        match b64Index c3 with
        | some s3 =>
          if c4 = '=' then
            if rest = [] then some [s1 * 4 + s2 / 16, s2 % 16 * 16 + s3 / 4] else none
          else
            match b64Index c4 with
            | some s4 =>
              match b64DecodeCore rest with
              | some bs => some ((s1 * 4 + s2 / 16) :: (s2 % 16 * 16 + s3 / 4) :: (s3 % 4 * 64 + s4) :: bs)
              | none => none
            | none => none
        | none => none
    | _, _ => none
  | _ => none

/-- Base64 decoding of a string back to the byte sequence. -/
def b64Decode (s : String) : Option (List Nat) := b64DecodeCore s.toList

/-- Case-insensitive-free header lookup used by the binary transform,
modelling `r.headers.get(name, default)`. -/
def headerGet (headers : List (String × String)) (name dflt : String) : String :=
  ((headers.find? (fun kv => kv.1 == name)).map (fun kv => kv.2)).getD dflt

/-- Request built by `get_icon_image` (server.py line 281): GET
`/api/Widget/GetIconImage` with the key as a query parameter. -/
def get_icon_image_request (env : Option String) (key : String)
    (bearer : Option String) : Except AdapterError Request :=
  match _need_token bearer with
  | .error e => .error e
  | .ok _ =>
    let c := _client env (bearer.getD "")
    .ok { method := .get, base_url := c.base_url,
          path := "/api/Widget/GetIconImage",
          query := [("key", .vStr key)], body := none, headers := c.headers }

/-- Embedding of the full `get_icon_image` operation: after
`raise_for_status`, the raw bytes are base64-encoded and paired with the
content-type header, defaulting to `application/octet-stream`. -/
def get_icon_image (env : Option String) (key : String)
    (bearer : Option String) (net : Net) : Except AdapterError Json :=
  match get_icon_image_request env key bearer with
  | .error e => .error e
  | .ok r =>
    let resp := net r
    match raise_for_status resp with
    | .error e => .error e
    | .ok _ =>
      let content_type := headerGet resp.headers "content-type" "application/octet-stream"
      let b64 := b64Encode resp.content
      .ok (.jObj [("content_type", .jStr content_type), ("base64", .jStr b64)])

/-- Body of the request produced by a request builder, when one was produced. -/
def reqBody : Except AdapterError Request → Option Dict
  | .ok r => r.body
  | .error _ => none

/-- Query string of the request produced by a request builder, when one was
produced. -/
def reqQuery : Except AdapterError Request → Option Dict
  | .ok r => some r.query
  | .error _ => none

theorem b64Index_b64Char : ∀ n : Nat, n < 64 → b64Index (b64Char n) = some n := by decide

theorem b64Char_ne_pad : ∀ n : Nat, n < 64 → b64Char n ≠ '=' := by decide

theorem b64_roundtrip_core : ∀ (bs : List Nat), (∀ x ∈ bs, x < 256) →
    b64DecodeCore (b64EncodeCore bs) = some bs
  | [] => fun _ => rfl
  | [a] => fun h => by
      have ha : a < 256 := h a (by simp)
      have e1 := b64Index_b64Char (a / 4) (by omega)
      have e2 := b64Index_b64Char (a % 4 * 16) (by omega)
      simp [b64EncodeCore, b64DecodeCore, e1, e2]
      omega
  | [a, b] => fun h => by
      have ha : a < 256 := h a (by simp)
      have hb : b < 256 := h b (by simp)
      have e1 := b64Index_b64Char (a / 4) (by omega)
      have e2 := b64Index_b64Char (a % 4 * 16 + b / 16) (by omega)
      have e3 := b64Index_b64Char (b % 16 * 4) (by omega)
      have n3 := b64Char_ne_pad (b % 16 * 4) (by omega)
      simp [b64EncodeCore, b64DecodeCore, e1, e2, e3, n3]
      constructor
      · omega
      · omega
  | [a, b, c] => fun h => by
      have ha : a < 256 := h a (by simp)
      have hb : b < 256 := h b (by simp)
      have hc : c < 256 := h c (by simp)
      have e1 := b64Index_b64Char (a / 4) (by omega)
      have e2 := b64Index_b64Char (a % 4 * 16 + b / 16) (by omega)
      have e3 := b64Index_b64Char (b % 16 * 4 + c / 64) (by omega)
      have e4 := b64Index_b64Char (c % 64) (by omega)
      have n3 := b64Char_ne_pad (b % 16 * 4 + c / 64) (by omega)
      have n4 := b64Char_ne_pad (c % 64) (by omega)
      simp [b64EncodeCore, b64DecodeCore, e1, e2, e3, e4, n3, n4]
      refine ⟨by omega, by omega, by omega⟩
  | a :: b :: c :: d :: rest => fun h => by
      have ha : a < 256 := h a (by simp)
      have hb : b < 256 := h b (by simp)
      have hc : c < 256 := h c (by simp)
      have ih := b64_roundtrip_core (d :: rest) (fun x hx => h x (by simp [hx]))
      have e1 := b64Index_b64Char (a / 4) (by omega)
      have e2 := b64Index_b64Char (a % 4 * 16 + b / 16) (by omega)
      have e3 := b64Index_b64Char (b % 16 * 4 + c / 64) (by omega)
      have e4 := b64Index_b64Char (c % 64) (by omega)
      have n3 := b64Char_ne_pad (b % 16 * 4 + c / 64) (by omega)
      have n4 := b64Char_ne_pad (c % 64) (by omega)
      simp [b64EncodeCore, b64DecodeCore, e1, e2, e3, e4, n3, n4, ih]
      refine ⟨by omega, by omega, by omega⟩

theorem b64_roundtrip (bs : List Nat) (h : ∀ x ∈ bs, x < 256) :
    b64Decode (b64Encode bs) = some bs := by
  unfold b64Decode b64Encode
  exact b64_roundtrip_core bs h

theorem dictGet_cons_eq (a : String × Value) (d : Dict) (k : String)
    (h : (a.1 == k) = true) : dictGet (a :: d) k = some a.2 := by
  simp [dictGet, List.find?_cons, h]

theorem dictGet_cons_ne (a : String × Value) (d : Dict) (k : String)
    (h : (a.1 == k) = false) : dictGet (a :: d) k = dictGet d k := by
  simp [dictGet, List.find?_cons, h]

theorem dictGet_map_keyupdate_ne (d : Dict) (k k' : String) (v : Value) (h : k' ≠ k) :
    dictGet (d.map (fun kv => if kv.1 == k then (kv.1, v) else kv)) k' = dictGet d k' := by
  induction d with
  | nil => rfl
  | cons a rest ih =>
    rw [List.map_cons]
    by_cases hb : a.1 = k'
    · have hak : (a.1 == k) = false := beq_eq_false_iff_ne.mpr (by rw [hb]; exact h)
      have hfa : (if (a.1 == k) = true then ((a.1 : String), v) else a) = a := by
        simp [hak]
      have hbk : (a.1 == k') = true := beq_iff_eq.mpr hb
      rw [hfa, dictGet_cons_eq a _ k' hbk, dictGet_cons_eq a rest k' hbk]
    · have hbk : (a.1 == k') = false := beq_eq_false_iff_ne.mpr hb
      have hkey : (((if (a.1 == k) = true then ((a.1 : String), v) else a)).1 == k') = false := by
        cases hq : (a.1 == k) <;> simp [hq, hbk]
      rw [dictGet_cons_ne _ _ k' hkey, dictGet_cons_ne a rest k' hbk]
      exact ih

theorem dictGet_dictSet (d : Dict) (k k' : String) (v : Value) :
    dictGet (dictSet d k v) k' = if k' = k then some v else dictGet d k' := by
  induction d with
  | nil =>
    by_cases h : k' = k
    · simp [dictSet, dictGet, List.find?, h]
    · have h2 : (k == k') = false := beq_eq_false_iff_ne.mpr (Ne.symm h)
      simp [dictSet, dictGet, List.find?, h, h2]
  | cons a rest ih =>
    by_cases ha : a.1 = k
    · have haT : (a.1 == k) = true := beq_iff_eq.mpr ha
      have hsome : (List.find? (fun kv => kv.1 == k) (a :: rest)).isSome = true := by
        simp [List.find?_cons, haT]
      have hs : dictSet (a :: rest) k v
          = (a.1, v) :: rest.map (fun kv => if kv.1 == k then (kv.1, v) else kv) := by
        unfold dictSet
        rw [if_pos hsome, List.map_cons, if_pos haT]
      rw [hs]
      by_cases h : k' = k
      · subst h
        have haT' : (a.1 == k') = true := haT
        rw [dictGet_cons_eq (a.1, v) _ k' haT', if_pos rfl]
      · have hak' : (a.1 == k') = false :=
          beq_eq_false_iff_ne.mpr (fun hc => h (hc.symm.trans ha))
        rw [dictGet_cons_ne (a.1, v) _ k' hak', if_neg h,
            dictGet_cons_ne a rest k' hak']
        exact dictGet_map_keyupdate_ne rest k k' v h
    · have haf : (a.1 == k) = false := beq_eq_false_iff_ne.mpr ha
      have hfind : (List.find? (fun kv => kv.1 == k) (a :: rest))
          = rest.find? (fun kv => kv.1 == k) := by
        simp [List.find?_cons, haf]
      have hs0 : dictSet (a :: rest) k v
          = if (rest.find? (fun kv => kv.1 == k)).isSome then
              (a :: rest).map (fun kv => if kv.1 == k then (kv.1, v) else kv)
            else (a :: rest) ++ [(k, v)] := by
        unfold dictSet
        rw [hfind]
      by_cases hf : (rest.find? (fun kv => kv.1 == k)).isSome = true
      · have hs : dictSet (a :: rest) k v
            = a :: rest.map (fun kv => if kv.1 == k then (kv.1, v) else kv) := by
          rw [hs0, if_pos hf, List.map_cons, if_neg (by simp [haf])]
        have hs' : dictSet rest k v
            = rest.map (fun kv => if kv.1 == k then (kv.1, v) else kv) := by
          unfold dictSet
          rw [if_pos hf]
        rw [hs]
        by_cases hb : a.1 = k'
        · have hbk : (a.1 == k') = true := beq_iff_eq.mpr hb
          have hkk : ¬ k' = k := fun hc => ha (hb.trans hc)
          rw [dictGet_cons_eq a _ k' hbk, if_neg hkk, dictGet_cons_eq a rest k' hbk]
        · have hbk : (a.1 == k') = false := beq_eq_false_iff_ne.mpr hb
          rw [dictGet_cons_ne a _ k' hbk, ← hs', ih, dictGet_cons_ne a rest k' hbk]
      · have hffalse : (rest.find? (fun kv => kv.1 == k)).isSome = false :=
          Bool.eq_false_iff.mpr hf
        have hs : dictSet (a :: rest) k v = a :: (rest ++ [(k, v)]) := by
          rw [hs0, if_neg (by simp [hffalse]), List.cons_append]
        have hs' : dictSet rest k v = rest ++ [(k, v)] := by
          unfold dictSet
          rw [if_neg (by simp [hffalse])]
        rw [hs]
        by_cases hb : a.1 = k'
        · have hbk : (a.1 == k') = true := beq_iff_eq.mpr hb
          have hkk : ¬ k' = k := fun hc => ha (hb.trans hc)
          rw [dictGet_cons_eq a _ k' hbk, if_neg hkk, dictGet_cons_eq a rest k' hbk]
        · have hbk : (a.1 == k') = false := beq_eq_false_iff_ne.mpr hb
          rw [dictGet_cons_ne a _ k' hbk, ← hs', ih, dictGet_cons_ne a rest k' hbk]

theorem dictGet_dictUpdate_not_mem : ∀ (e d : Dict) (k : String),
    k ∉ e.map Prod.fst → dictGet (dictUpdate d e) k = dictGet d k
  | [], _, _ => fun _ => rfl
  | a :: e', d, k => fun h => by
      have hne : k ≠ a.1 := fun hc => h (by simp [hc])
      have h' : k ∉ e'.map Prod.fst := fun hc => h (by simp [hc])
      have hrec := dictGet_dictUpdate_not_mem e' (dictSet d a.1 a.2) k h'
      calc dictGet (dictUpdate d (a :: e')) k
          = dictGet (dictUpdate (dictSet d a.1 a.2) e') k := rfl
        _ = dictGet (dictSet d a.1 a.2) k := hrec
        _ = dictGet d k := by rw [dictGet_dictSet, if_neg hne]

theorem dictGet_dictUpdate_mem : ∀ (e d : Dict) (k : String) (v : Value),
    (e.map Prod.fst).Nodup → (k, v) ∈ e → dictGet (dictUpdate d e) k = some v
  | [], _, _, _ => fun _ h => absurd h (List.not_mem_nil _)
  | a :: e', d, k, v => fun hnd hm => by
      have hnd2 := List.nodup_cons.mp (by simpa using hnd :
        (a.1 :: e'.map Prod.fst).Nodup)
      rcases List.mem_cons.mp hm with heq | hmem
      · have hk : a.1 = k := by rw [← heq]
        have hv : a.2 = v := by rw [← heq]
        have hnm : k ∉ e'.map Prod.fst := hk ▸ hnd2.1
        calc dictGet (dictUpdate d (a :: e')) k
            = dictGet (dictUpdate (dictSet d a.1 a.2) e') k := rfl
          _ = dictGet (dictSet d a.1 a.2) k :=
              dictGet_dictUpdate_not_mem e' _ k hnm
          _ = some v := by rw [dictGet_dictSet, if_pos hk.symm, hv]
      · exact dictGet_dictUpdate_mem e' (dictSet d a.1 a.2) k v hnd2.2 hmem

theorem keepEntry_eq_true_iff (v : Value) :
    keepEntry v = true ↔ v ≠ .vNone ∧ v ≠ .vList [] := by
  cases v with
  | vList xs => cases xs <;> simp [keepEntry]
  | _ => simp [keepEntry]

/-- C2: for the normalization routines `_prune` and `_q`, the output
contains exactly the entries whose value is neither `None` nor the empty
list, unchanged; in particular the map `a ↦ None, b ↦ [], c ↦ 5`
normalizes to `c ↦ 5` alone. -/
theorem claim2_normalizer_keeps_exactly_non_absent :
    (∀ (d : Dict) (k : String) (v : Value),
        (k, v) ∈ _prune d ↔ ((k, v) ∈ d ∧ v ≠ .vNone ∧ v ≠ .vList [])) ∧
    (∀ (d : Dict) (k : String) (v : Value),
        (k, v) ∈ _q d ↔ ((k, v) ∈ d ∧ v ≠ .vNone ∧ v ≠ .vList [])) ∧
    _prune [("a", .vNone), ("b", .vList []), ("c", .vInt 5)] = [("c", .vInt 5)] := by
  refine ⟨?_, ?_, rfl⟩ <;>
    · intro d k v
      simp [_prune, _q, List.mem_filter, keepEntry_eq_true_iff]

/-- C9: the health/meta operation takes no credential and no network
oracle; it returns the liveness flag and the configured Data-API base
address, whose default is `https://api.pre.iot.machinesensiot.com`. -/
theorem claim9_health_reports_liveness_and_base :
    (∀ env : Option String,
      health env = .jObj [("ok", .jBool true), ("api_base", .jStr (DATA_API_BASE env))]) ∧
    DATA_API_BASE none = "https://api.pre.iot.machinesensiot.com" :=
  ⟨fun _ => rfl, rfl⟩

/-- C1: every embedded proxy operation invoked with an absent (`None`) or
empty credential fails with the missing-credential error, for every
network oracle alike — the result does not depend on the network, so no
request is issued and no client is consulted. -/
theorem claim1_missing_credential_no_io :
    ∀ (env : Option String) (net : Net),
      (_need_token none = .error .missingCredential ∧
       _need_token (some "") = .error .missingCredential) ∧
      (∀ pageNo pageSize search,
        get_sites env pageNo pageSize search none net = .error .missingCredential ∧
        get_sites env pageNo pageSize search (some "") net = .error .missingCredential) ∧
      (∀ pageNo pageSize search siteId buildingTypeId,
        get_buildings env pageNo pageSize search siteId buildingTypeId none net
          = .error .missingCredential ∧
        get_buildings env pageNo pageSize search siteId buildingTypeId (some "") net
          = .error .missingCredential) ∧
      (∀ siteIds buildingIds year month,
        get_energy_dashboard_data env siteIds buildingIds year month none net
          = .error .missingCredential ∧
        get_energy_dashboard_data env siteIds buildingIds year month (some "") net
          = .error .missingCredential) ∧
      (∀ pageNo pageSize search siteIds buildingIds floorIds applicationIds assetIds
          startDate endDate extra,
        get_overview_dashboard env pageNo pageSize search siteIds buildingIds floorIds
            applicationIds assetIds startDate endDate extra none net
          = .error .missingCredential ∧
        get_overview_dashboard env pageNo pageSize search siteIds buildingIds floorIds
            applicationIds assetIds startDate endDate extra (some "") net
          = .error .missingCredential) ∧
      (∀ startDate endDate siteId buildingId,
        ems_portfolio_get_utility_energy_stats env startDate endDate siteId buildingId none net
          = .error .missingCredential ∧
        ems_portfolio_get_utility_energy_stats env startDate endDate siteId buildingId (some "") net
          = .error .missingCredential) ∧
      (∀ buildingName startDate endDate meterId,
        ems_ecm_get_high_apparent_or_active_power env buildingName startDate endDate meterId none net
          = .error .missingCredential ∧
        ems_ecm_get_high_apparent_or_active_power env buildingName startDate endDate meterId (some "") net
          = .error .missingCredential) ∧
      (∀ key,
        get_icon_image env key none net = .error .missingCredential ∧
        get_icon_image env key (some "") net = .error .missingCredential) := by
  intro env net
  exact ⟨⟨rfl, rfl⟩,
    fun _ _ _ => ⟨rfl, rfl⟩,
    fun _ _ _ _ _ => ⟨rfl, rfl⟩,
    fun _ _ _ _ => ⟨rfl, rfl⟩,
    fun _ _ _ _ _ _ _ _ _ _ _ => ⟨rfl, rfl⟩,
    fun _ _ _ _ => ⟨rfl, rfl⟩,
    fun _ _ _ _ => ⟨rfl, rfl⟩,
    fun _ => ⟨rfl, rfl⟩⟩

/-- C3 counterexample: `get_overview_dashboard` normalizes with
`_clean_payload`, which keeps empty lists, so an explicitly supplied
empty `siteIds` list IS carried in the outgoing body — the claim that
every operation omits empty lists is false. -/
theorem claim3_counterexample_empty_list_sent :
    reqBody (get_overview_dashboard_request none 1 20 none (some []) none none none
        none none none none (some "tok"))
      = some [("pageNo", .vInt 1), ("pageSize", .vInt 20), ("siteIds", .vList [])] ∧
    dictGet [("pageNo", .vInt 1), ("pageSize", .vInt 20), ("siteIds", .vList [])] "siteIds"
      = some (.vList []) :=
  ⟨rfl, rfl⟩

/-- C3 (amended): operations normalizing through `_prune` or `_q` never
carry an empty-list argument, while operations normalizing through
`_clean_payload` (such as `get_overview_dashboard`) retain an explicitly
supplied empty list. -/
theorem claim3_amended_empty_list_pruning :
    (∀ (d : Dict) (k : String),
      (k, Value.vList []) ∉ _prune d ∧ (k, Value.vList []) ∉ _q d) ∧
    (∀ (d : Dict) (k : String),
      (k, Value.vList []) ∈ d → (k, Value.vList []) ∈ _clean_payload d) := by
  constructor
  · intro d k
    constructor <;>
      · intro hm
        simp [_prune, _q, List.mem_filter, keepEntry] at hm
  · intro d k hm
    simp [_clean_payload, List.mem_filter, hm]

/-- Witness for the amended C3 at concrete inputs. -/
theorem claim3_amended_witness :
    ("a", Value.vList []) ∉ _prune [("a", Value.vList [])] ∧
    ("a", Value.vList []) ∈ _clean_payload [("a", Value.vList [])] :=
  ⟨(claim3_amended_empty_list_pruning.1 [("a", Value.vList [])] "a").1,
   claim3_amended_empty_list_pruning.2 [("a", Value.vList [])] "a" (by simp)⟩

/-- C6: for the embedded paginated list operations, whatever integer
values `pageNo` and `pageSize` take (the declared defaults included),
every produced request body carries both keys with those values. -/
theorem claim6_pagination_always_present :
    (∀ env pageNo pageSize search bearer body,
      reqBody (get_sites_request env pageNo pageSize search bearer) = some body →
      dictGet body "pageNo" = some (.vInt pageNo) ∧
      dictGet body "pageSize" = some (.vInt pageSize)) ∧
    (∀ env pageNo pageSize search siteId buildingTypeId bearer body,
      reqBody (get_buildings_request env pageNo pageSize search siteId buildingTypeId bearer)
        = some body →
      dictGet body "pageNo" = some (.vInt pageNo) ∧
      dictGet body "pageSize" = some (.vInt pageSize)) := by
  constructor
  · intro env pageNo pageSize search bearer body h
    cases bearer with
    | none => simp [get_sites_request, _need_token, reqBody] at h
    | some b =>
      by_cases hb : b = ""
      · simp [get_sites_request, _need_token, hb, reqBody] at h
      · simp only [get_sites_request, _need_token, hb, if_false, reqBody] at h
        injection h with h2
        subst h2
        constructor <;> rfl
  · intro env pageNo pageSize search siteId buildingTypeId bearer body h
    cases bearer with
    | none => simp [get_buildings_request, _need_token, reqBody] at h
    | some b =>
      by_cases hb : b = ""
      · simp [get_buildings_request, _need_token, hb, reqBody] at h
      · simp only [get_buildings_request, _need_token, hb, if_false, reqBody] at h
        injection h with h2
        subst h2
        constructor <;> rfl

/-- Witness for C6 at the declared defaults pageNo=1, pageSize=20. -/
theorem claim6_pagination_witness :
    dictGet [("pageNo", Value.vInt 1), ("pageSize", Value.vInt 20)] "pageNo"
      = some (.vInt 1) ∧
    dictGet [("pageNo", Value.vInt 1), ("pageSize", Value.vInt 20)] "pageSize"
      = some (.vInt 20) :=
  claim6_pagination_always_present.1 none 1 20 none (some "tok")
    [("pageNo", .vInt 1), ("pageSize", .vInt 20)] rfl

/-- C10: the pruning routines drop only `None` (and empty lists): falsy
but present scalars — integer 0, the empty string, `False` — are
retained; the energy-dashboard body carries year 0 and month 0 at the
defaults, and the utility-energy-stats query carries siteId 0 and
buildingId 0 at the defaults. -/
theorem claim10_falsy_scalars_retained :
    (∀ (d : Dict) (k : String),
      ((k, Value.vInt 0) ∈ d → (k, Value.vInt 0) ∈ _prune d) ∧
      ((k, Value.vStr "") ∈ d → (k, Value.vStr "") ∈ _prune d) ∧
      ((k, Value.vBool false) ∈ d → (k, Value.vBool false) ∈ _prune d) ∧
      ((k, Value.vInt 0) ∈ d → (k, Value.vInt 0) ∈ _q d) ∧
      ((k, Value.vStr "") ∈ d → (k, Value.vStr "") ∈ _q d) ∧
      ((k, Value.vBool false) ∈ d → (k, Value.vBool false) ∈ _q d)) ∧
    (∀ env bearer body,
      reqBody (get_energy_dashboard_data_request env none none 0 0 bearer) = some body →
      dictGet body "year" = some (.vInt 0) ∧ dictGet body "month" = some (.vInt 0)) ∧
    (∀ env startDate endDate bearer q,
      reqQuery (ems_portfolio_get_utility_energy_stats_request env startDate endDate
          (some 0) (some 0) bearer) = some q →
      dictGet q "siteId" = some (.vInt 0) ∧ dictGet q "buildingId" = some (.vInt 0)) := by
  refine ⟨?_, ?_, ?_⟩
  · intro d k
    refine ⟨?_, ?_, ?_, ?_, ?_, ?_⟩ <;>
      · intro hm
        simp [_prune, _q, List.mem_filter, keepEntry, hm]
  · intro env bearer body h
    cases bearer with
    | none => simp [get_energy_dashboard_data_request, _need_token, reqBody] at h
    | some b =>
      by_cases hb : b = ""
      · simp [get_energy_dashboard_data_request, _need_token, hb, reqBody] at h
      · simp only [get_energy_dashboard_data_request, _need_token, hb, if_false, reqBody] at h
        injection h with h2
        subst h2
        constructor <;> rfl
  · intro env startDate endDate bearer q h
    cases bearer with
    | none => simp [ems_portfolio_get_utility_energy_stats_request, _need_token, reqQuery] at h
    | some b =>
      by_cases hb : b = ""
      · simp [ems_portfolio_get_utility_energy_stats_request, _need_token, hb, reqQuery] at h
      · simp only [ems_portfolio_get_utility_energy_stats_request, _need_token, hb,
          if_false, reqQuery] at h
        injection h with h2
        subst h2
        constructor <;> rfl

/-- Witness for C10 at concrete inputs. -/
theorem claim10_falsy_scalars_witness :
    (("k", Value.vInt 0) ∈ _prune [("k", Value.vInt 0)]) ∧
    dictGet [("year", Value.vInt 0), ("month", Value.vInt 0)] "year" = some (.vInt 0) ∧
    dictGet [("siteId", Value.vInt 0), ("buildingId", Value.vInt 0),
        ("startDate", Value.vStr "2024-01-01"), ("endDate", Value.vStr "2024-01-31")] "siteId"
      = some (.vInt 0) :=
  ⟨(claim10_falsy_scalars_retained.1 [("k", Value.vInt 0)] "k").1 (by simp),
   (claim10_falsy_scalars_retained.2.1 none (some "tok")
      [("year", Value.vInt 0), ("month", Value.vInt 0)] rfl).1,
   (claim10_falsy_scalars_retained.2.2 none "2024-01-01" "2024-01-31" (some "tok")
      [("siteId", Value.vInt 0), ("buildingId", Value.vInt 0),
       ("startDate", Value.vStr "2024-01-01"), ("endDate", Value.vStr "2024-01-31")] rfl).1⟩

/-- C5: every request produced by the high-apparent/active-power
operation carries the logical `meterId` value under the wire key
`meterid` in the query string, and never carries a `meterId` key. -/
theorem claim5_meterid_wire_name :
    ∀ env buildingName startDate endDate meterId bearer q,
      reqQuery (ems_ecm_get_high_apparent_or_active_power_request env buildingName
          startDate endDate meterId bearer) = some q →
      dictGet q "meterId" = none ∧
      (∀ n, meterId = some n → dictGet q "meterid" = some (.vInt n)) := by
  intro env buildingName startDate endDate meterId bearer q h
  cases bearer with
  | none => simp [ems_ecm_get_high_apparent_or_active_power_request, _need_token, reqQuery] at h
  | some b =>
    by_cases hb : b = ""
    · simp [ems_ecm_get_high_apparent_or_active_power_request, _need_token, hb, reqQuery] at h
    · simp only [ems_ecm_get_high_apparent_or_active_power_request, _need_token, hb,
        if_false, reqQuery] at h
      injection h with h2
      subst h2
      cases meterId with
      | none =>
        refine ⟨rfl, ?_⟩
        intro n hn
        exact absurd hn (by simp)
      | some m =>
        refine ⟨rfl, ?_⟩
        intro n hn
        injection hn with hn2
        subst hn2
        rfl

/-- Witness for C5 at a concrete meter id. -/
theorem claim5_meterid_witness :
    dictGet (_q [("buildingName", Value.vStr "B1"), ("startDate", Value.vStr "2024-01-01"),
        ("endDate", Value.vStr "2024-01-31"), ("meterid", Value.vInt 7)]) "meterId" = none ∧
    dictGet (_q [("buildingName", Value.vStr "B1"), ("startDate", Value.vStr "2024-01-01"),
        ("endDate", Value.vStr "2024-01-31"), ("meterid", Value.vInt 7)]) "meterid"
      = some (.vInt 7) := by
  have h := claim5_meterid_wire_name none "B1" "2024-01-01" "2024-01-31" (some 7) (some "tok")
    (_q [("buildingName", Value.vStr "B1"), ("startDate", Value.vStr "2024-01-01"),
        ("endDate", Value.vStr "2024-01-31"), ("meterid", Value.vInt 7)]) rfl
  exact ⟨h.1, h.2 7 rfl⟩

/-- C7: on a non-2xx upstream status the operation fails with the
upstream error carrying that status (and a body excerpt), returning no
partial or empty JSON result; exactly one request is issued and there is
no retry. -/
theorem claim7_non2xx_raises_upstream_error :
    ∀ env pageNo pageSize search bearer (net : Net) r,
      get_sites_request env pageNo pageSize search bearer = .ok r →
      ¬(200 ≤ (net r).status ∧ (net r).status < 300) →
      get_sites env pageNo pageSize search bearer net
        = .error (.upstream (net r).status (net r).text) := by
  intro env pageNo pageSize search bearer net r hreq hstat
  unfold get_sites runJson
  rw [hreq]
  simp only [raise_for_status, if_neg hstat]

/-- Witness for C7: a 404 response yields the 404 upstream error. -/
theorem claim7_non2xx_witness :
    get_sites none 1 20 none (some "tok")
        (fun _ => { status := 404, headers := [], content := [],
                    jsonBody := some .jNull, text := "not found" })
      = .error (.upstream 404 "not found") :=
  claim7_non2xx_raises_upstream_error none 1 20 none (some "tok")
    (fun _ => { status := 404, headers := [], content := [],
                jsonBody := some .jNull, text := "not found" })
    _ rfl (by decide)

/-- C4: when the free-form extension map is supplied non-empty, the
request body of the overview-dashboard operation is the normalized named
parameters updated with the extension entries; an extension key always
wins over a named-parameter key, and the `x ↦ 1` body extended with
`x ↦ 2, y ↦ 3` carries `x ↦ 2` and `y ↦ 3`. -/
theorem claim4_extension_merge_overwrites :
    (∀ env pageNo pageSize search siteIds buildingIds floorIds applicationIds
        assetIds startDate endDate (e : Dict) bearer,
      _need_token bearer = .ok () → e ≠ [] →
      reqBody (get_overview_dashboard_request env pageNo pageSize search siteIds
          buildingIds floorIds applicationIds assetIds startDate endDate (some e) bearer)
        = some (dictUpdate (overview_named_payload pageNo pageSize search siteIds
            buildingIds floorIds applicationIds assetIds startDate endDate) e)) ∧
    (∀ (d e : Dict) (k : String) (v : Value), (e.map Prod.fst).Nodup → (k, v) ∈ e →
      dictGet (dictUpdate (_clean_payload d) e) k = some v) ∧
    (dictGet (dictUpdate (_clean_payload [("x", .vInt 1)])
        [("x", .vInt 2), ("y", .vInt 3)]) "x" = some (.vInt 2) ∧
     dictGet (dictUpdate (_clean_payload [("x", .vInt 1)])
        [("x", .vInt 2), ("y", .vInt 3)]) "y" = some (.vInt 3)) := by
  refine ⟨?_, ?_, rfl, rfl⟩
  · intro env pageNo pageSize search siteIds buildingIds floorIds applicationIds
      assetIds startDate endDate e bearer htok he
    cases bearer with
    | none => simp [_need_token] at htok
    | some b =>
      by_cases hb : b = ""
      · simp [_need_token, hb] at htok
      · have hne : e.isEmpty = false := by
          cases e with
          | nil => exact absurd rfl he
          | cons a e' => rfl
        simp only [get_overview_dashboard_request, _need_token, hb, if_false, hne,
          Bool.false_eq_true, reqBody]
  · intro d e k v hnd hm
    exact dictGet_dictUpdate_mem e (_clean_payload d) k v hnd hm

/-- Witness for C4: concrete merge of an `x, y` extension over a
normalized payload, and the request-level equation at concrete inputs. -/
theorem claim4_extension_merge_witness :
    reqBody (get_overview_dashboard_request none 1 20 none none none none none none
        none none (some [("x", .vInt 2), ("y", .vInt 3)]) (some "tok"))
      = some (dictUpdate (overview_named_payload 1 20 none none none none none none
          none none) [("x", .vInt 2), ("y", .vInt 3)]) ∧
    dictGet (dictUpdate (_clean_payload [("x", .vInt 1)])
        [("x", .vInt 2), ("y", .vInt 3)]) "x" = some (.vInt 2) ∧
    dictGet (dictUpdate (_clean_payload [("x", .vInt 1)])
        [("x", .vInt 2), ("y", .vInt 3)]) "y" = some (.vInt 3) :=
  ⟨claim4_extension_merge_overwrites.1 none 1 20 none none none none none none none
      none [("x", .vInt 2), ("y", .vInt 3)] (some "tok") rfl (by simp),
   claim4_extension_merge_overwrites.2.1 [("x", .vInt 1)] [("x", .vInt 2), ("y", .vInt 3)]
      "x" (.vInt 2) (by simp) (by simp),
   claim4_extension_merge_overwrites.2.1 [("x", .vInt 1)] [("x", .vInt 2), ("y", .vInt 3)]
      "y" (.vInt 3) (by simp) (by simp)⟩

/-- C8: for every produced icon-image request and every 2xx upstream
response of bytes, the result pairs the content-type header (defaulting
to `application/octet-stream` when absent) with the base64 encoding of
the bytes, and decoding that base64 reproduces the bytes exactly. -/
theorem claim8_binary_base64_roundtrip :
    ∀ env key bearer (net : Net) r,
      get_icon_image_request env key bearer = .ok r →
      (200 ≤ (net r).status ∧ (net r).status < 300) →
      (∀ x ∈ (net r).content, x < 256) →
      get_icon_image env key bearer net
        = .ok (.jObj [("content_type",
              .jStr (headerGet (net r).headers "content-type" "application/octet-stream")),
            ("base64", .jStr (b64Encode (net r).content))]) ∧
      b64Decode (b64Encode (net r).content) = some (net r).content ∧
      (∀ kv, (net r).headers.find? (fun p => p.1 == "content-type") = some kv →
        headerGet (net r).headers "content-type" "application/octet-stream" = kv.2) ∧
      ((net r).headers.find? (fun p => p.1 == "content-type") = none →
        headerGet (net r).headers "content-type" "application/octet-stream"
          = "application/octet-stream") := by
  intro env key bearer net r hreq hstat hbytes
  refine ⟨?_, b64_roundtrip _ hbytes, ?_, ?_⟩
  · unfold get_icon_image
    rw [hreq]
    simp only [raise_for_status, if_pos hstat]
  · intro kv hkv
    simp [headerGet, hkv]
  · intro hnone
    simp [headerGet, hnone]

/-- Witness for C8: a PNG-signature byte string with a present
content-type header round-trips through the binary transform. -/
theorem claim8_binary_witness :
    get_icon_image none "logo" (some "tok")
        (fun _ => { status := 200, headers := [("content-type", "image/png")],
                    content := [137, 80, 78, 71], jsonBody := none, text := "" })
      = .ok (.jObj [("content_type", .jStr "image/png"),
            ("base64", .jStr (b64Encode [137, 80, 78, 71]))]) ∧
    b64Decode (b64Encode [137, 80, 78, 71]) = some [137, 80, 78, 71] ∧
    b64Encode [137, 80, 78, 71] = "iVBORw==" := by
  have h := claim8_binary_base64_roundtrip none "logo" (some "tok")
    (fun _ => { status := 200, headers := [("content-type", "image/png")],
                content := [137, 80, 78, 71], jsonBody := none, text := "" })
    _ rfl (by decide) (by decide)
  exact ⟨h.1, h.2.1, rfl⟩
